import Mathlib

/-
  Verification of the PIDA chat backend (webmaster-pida/CHAT_v20).

  Shallow embedding of the streaming chat orchestrator and its access-control
  gate.  Pure Python string operations are modelled over `String`
  (character-list based, ASCII-faithful); every external effect of the
  per-request coroutine (subscription lookup, history-store appends and reads,
  the two retrieval tasks, the model stream) is an explicit oracle input in
  `Env`, and the coroutine itself is embedded as a pure function from `Env` to
  the ordered list of emitted stream events plus the successful history-store
  appends.  Wire framing (`data: <json>` lines) is a bijective rendering of
  the structured events and is not re-modelled.
-/

set_option maxHeartbeats 1000000

deriving instance DecidableEq for Except

/-- Python `s.lower()` restricted to ASCII case mapping (all emails and
configuration values handled by this codebase are ASCII). -/
def pyLower (s : String) : String := String.mk (s.data.map Char.toLower)

/-- Python `str.strip` whitespace test (ASCII whitespace). -/
def isPySpace (c : Char) : Bool :=
  c == ' ' || c == '\t' || c == '\n' || c == '\r' || c == '\x0b' || c == '\x0c'

/-- Python `s.strip()`: drop leading and trailing whitespace. -/
def pyStrip (s : String) : String :=
  String.mk (((s.data.dropWhile isPySpace).reverse.dropWhile isPySpace).reverse)

/-- Python `e.split("@")[-1] if "@" in e else ""`: the substring after the
last at-sign, or the empty string when no at-sign is present
(src/main.py line 198 and line 396). -/
def afterLastAt (e : String) : String :=
  if e.data.contains '@' then
    String.mk ((e.data.reverse.takeWhile (fun c => c != '@')).reverse)
  else ""

/-- Python `e.split("@")[1] if "@" in e else ""`: the segment between the
first at-sign and the following at-sign or end of string
(src/core/security.py line 44). -/
def segmentAfterFirstAt (e : String) : String :=
  if e.data.contains '@' then
    String.mk (((e.data.dropWhile (fun c => c != '@')).drop 1).takeWhile (fun c => c != '@'))
  else ""

/-- The stream events emitted by the orchestrator, the structured payloads of
the SSE frames of src/main.py (`status`, `text`, `error`, `done`). -/
inductive Event
  | status (message : String)
  | text (fragment : String)
  | error (message : String)
  | done
  deriving DecidableEq, Repr

/-- Python exception kinds relevant to the embedded code paths. -/
inductive PyExn
  | attributeError
  | typeError
  | nameError
  | otherError
  deriving DecidableEq, Repr

/-- Outcome of the model stream of gemini_client as seen by its consumer:
either the underlying Vertex stream finishes normally after the given chunks,
or it raises after yielding the given chunks. -/
inductive GenOutcome
  | success (chunks : List String)
  | failAfter (chunks : List String)
  deriving DecidableEq, Repr

/-- Result of `verify_active_subscription`: normal return, or an
HTTPException with status code and detail. -/
inductive GateOutcome
  | ok
  | httpError (code : Nat) (detail : String)
  deriving DecidableEq, Repr

/-- A gate run: its outcome plus whether the subscription store was queried. -/
structure GateRun where
  outcome : GateOutcome
  queriedStore : Bool
  deriving DecidableEq, Repr

def DETAIL_403 : String := "No tienes una suscripción activa."

def DETAIL_500 : String := "Error interno verificando suscripción."

def GENERIC_STREAM_ERROR : String := "Ocurrió un error interno al generar la respuesta."

def MSG_INICIANDO : String := "Iniciando... 🕵️"

def MSG_CONSULTANDO : String := "Consultando jurisprudencia..."

def MSG_GENERANDO : String := "Generando respuesta..."

def NO_MODEL_TEXT : String := "Error: El modelo de IA no está configurado correctamente."

def GEN_FAILURE_TEXT : String := "Hubo un problema al contactar al servicio de IA."

/-- Embedding of src/main.py `verify_active_subscription` (lines 192-214).
`store` is the oracle for the Firestore query on this user: either the list
of status fields of the subscription documents of the user, or a store
fault (any exception raised by the query).  The code filters with
`where("status", "in", ["active", "trialing"]).limit(1)` and raises 403 when
the result set is empty, 500 when the query itself raised; the allow-list
check short-circuits before the query. -/
def verify_active_subscription (admin_domains admin_emails : List String)
    (rawEmail : String) (store : Except Unit (List String)) : GateRun :=
  let user_email := pyLower (pyStrip rawEmail)
  let email_domain := afterLastAt user_email
  if email_domain ∈ admin_domains ∨ user_email ∈ admin_emails then
    { outcome := GateOutcome.ok, queriedStore := false }
  else
    match store with
    | Except.error _ =>
      { outcome := GateOutcome.httpError 500 DETAIL_500, queriedStore := true }
    | Except.ok subs =>
      let results := (subs.filter (fun s => s == "active" || s == "trialing")).take 1
      if results.isEmpty then
        { outcome := GateOutcome.httpError 403 DETAIL_403, queriedStore := true }
      else
        { outcome := GateOutcome.ok, queriedStore := true }

/-- Authorization core of src/core/security.py `get_current_user`
(lines 43-96), after the token signature has been verified and yielded
`tokenEmail`.  The configuration values arrive as lists (the Settings
validator of src/config.py always produces lists), and the function
re-normalizes each entry with strip+lower; access is refused with
HTTPException 403 exactly when at least one restriction is configured and
neither the domain (segment after the first at-sign) nor the full lowercased
email is listed. -/
def get_current_user_gate (cfgDomains cfgEmails : List String)
    (tokenEmail : String) : Except Nat Unit :=
  let email := pyLower tokenEmail
  let domain := segmentAfterFirstAt email
  let allowed_domains := cfgDomains.map (fun d => pyLower (pyStrip d))
  let allowed_emails := cfgEmails.map (fun e => pyLower (pyStrip e))
  if (allowed_domains ≠ [] ∨ allowed_emails ≠ []) ∧
      ¬(domain ∈ allowed_domains ∨ email ∈ allowed_emails) then
    Except.error 403
  else
    Except.ok ()

/-- The value of `Settings.ADMIN_DOMAINS` when the environment supplies no
override: the default literal of src/config.py line 50 is the JSON text
holding exactly these two entries, and `parse_json_list` turns it into this
list (json.loads, then strip+lower of each item, which fixes both entries). -/
def defaultAdminDomains : List String := ["iiresodh.org", "urquilla.com"]

/-- The value of `Settings.ADMIN_EMAILS` when the environment supplies no
override: the default literal of src/config.py line 51 is the JSON text of an
empty list. -/
def defaultAdminEmails : List String := []

/-- Embedding of src/modules/gemini_client.py `generate_streaming_response`
(lines 39-79) as the finite list of fragments it yields.  When the module
level model handle is None it yields a single configuration-error sentence
and returns.  Otherwise every fragment with non-empty text is yielded in
order; any exception raised while calling the model or consuming its stream
is caught by the try/except of the function, which then yields one fallback
sentence and finishes normally — the generator itself never propagates such
an exception to its consumer. -/
def generate_streaming_response (modelAvailable : Bool) (g : GenOutcome) : List String :=
  if !modelAvailable then
    [NO_MODEL_TEXT]
  else
    match g with
    | GenOutcome.success cs => cs.filter (fun c => c != "")
    | GenOutcome.failAfter cs => cs.filter (fun c => c != "") ++ [GEN_FAILURE_TEXT]

/-- Python `str(x)` on the optional country code: the header value when
present, the literal text None otherwise (f-string rendering of the None
object in src/main.py line 253). -/
def pyStrOfOpt : Option String → String
  | none => "None"
  | some s => s

/-- Embedding of the prompt assembly f-string of src/main.py line 253. -/
def final_prompt (country_code : Option String) (combined_context : String)
    (prompt : String) : String :=
  "Contexto geográfico: " ++ pyStrOfOpt country_code ++ "\n" ++ combined_context
    ++ "\n\n---\n\nPregunta del usuario: " ++ prompt

/-- The names bound at module top level of src/modules/vertex_search_client.py
(its imports and definitions).  The module defines `search_legal_docs`; it
binds no name `search`. -/
def vertex_search_client_top_level_names : List String :=
  ["ClientOptions", "discoveryengine", "settings", "log",
   "PROJECT_ID", "LOCATION", "DATA_STORE_ID", "search_legal_docs"]

/-- The names bound at module top level of src/main.py (all imports and
definitions, in order of appearance).  The name `jsonify` is absent. -/
def main_module_top_level_names : List String :=
  ["json", "asyncio", "io", "re", "datetime",
   "FastAPI", "Request", "Depends", "HTTPException", "status", "Form", "Response",
   "StreamingResponse", "CORSMiddleware", "List", "Dict", "Any",
   "Document", "FPDF", "settings", "log", "ChatRequest", "ChatMessage",
   "vertex_search_client", "gemini_client", "rag_client", "firestore_client",
   "PIDA_SYSTEM_PROMPT", "get_current_user", "firestore",
   "app", "origins", "db", "generate_filename", "sanitize_text_for_pdf",
   "write_markdown_to_pdf", "PDF", "create_chat_docx_sync", "create_chat_pdf_sync",
   "verify_active_subscription", "stream_chat_response_generator",
   "read_status", "get_user_conversations", "get_conversation_details",
   "create_new_empty_conversation", "delete_a_conversation",
   "update_conversation_title_handler", "chat_stream_handler",
   "download_chat", "check_vip_access_handler"]

/-- The construction of `search_tasks` at src/main.py lines 240-243.  The
expression `vertex_search_client.search` is an attribute lookup evaluated
while building the list, before any task is awaited; the module binds no
name `search`, so the lookup raises AttributeError and the whole list
construction fails.  `outcomes` is what the two tasks would deliver, in
completion order, were the construction to succeed. -/
def search_tasks_construction (outcomes : List (Except PyExn String)) :
    Except PyExn (List (Except PyExn String)) :=
  if "search" ∈ vertex_search_client_top_level_names then
    Except.ok outcomes
  else
    Except.error PyExn.attributeError

/-- The oracle inputs of one run of `stream_chat_response_generator`: the
request data plus the outcome of every external call the coroutine awaits,
in program order (subscription store, user-message append, history read, the
two retrieval tasks in completion order, the model stream, model-message
append). -/
structure Env where
  admin_domains : List String
  admin_emails : List String
  email : String
  subStore : Except Unit (List String)
  persistUserOk : Bool
  history : Except Unit (List (String × String))
  searchTasks : Except PyExn (List (Except PyExn String))
  modelAvailable : Bool
  gen : GenOutcome
  persistModelOk : Bool
  country_code : Option String
  prompt : String

/-- Observable result of one orchestrator run: the emitted events in order,
the successful history-store appends (role, content) for this conversation in
order, and the prompt handed to the model when generation was reached. -/
structure RunResult where
  events : List Event
  appends : List (String × String)
  genPrompt : Option String
  deriving DecidableEq, Repr

/-- The as-completed retrieval loop of src/main.py lines 246-249: for each
completed task, add its result to `combined_context` and emit one numbered
status event; a task that raises aborts the loop (the exception propagates
to the enclosing try).  Returns the emitted events and, on completion of all
tasks, the accumulated context. -/
def retrievalLoop : List (Except PyExn String) → Nat → String → List Event × Option String
  | [], _, ctx => ([], some ctx)
  | Except.error _ :: _, _, _ => ([], none)
  | Except.ok r :: rest, i, ctx =>
    let tail := retrievalLoop rest (i + 1) (ctx ++ r)
    (Event.status ("Fuente " ++ toString (i + 1) ++ " procesada...") :: tail.1, tail.2)

/-- Continuation of the orchestrator after the retrieval loop completed with
combined context `ctx` (src/main.py lines 251-268): emit the generating
status, drive the model stream emitting one text event per fragment while
accumulating `full_response_text`, append the model message when the
accumulated text is non-empty (a failing append raises into the generic
except, which emits the error event instead of done), then emit done. -/
def afterRetrieval (env : Env) (fev : List Event) (ctx : String) : RunResult :=
  let chunks := generate_streaming_response env.modelAvailable env.gen
  let full_response_text := String.join chunks
  let fp := final_prompt env.country_code ctx env.prompt
  let pre := [Event.status MSG_INICIANDO, Event.status MSG_CONSULTANDO] ++ fev
    ++ [Event.status MSG_GENERANDO] ++ chunks.map Event.text
  if full_response_text = "" then
    { events := pre ++ [Event.done], appends := [("user", env.prompt)], genPrompt := some fp }
  else if env.persistModelOk then
    { events := pre ++ [Event.done],
      appends := [("user", env.prompt), ("model", full_response_text)], genPrompt := some fp }
  else
    { events := pre ++ [Event.error GENERIC_STREAM_ERROR],
      appends := [("user", env.prompt)], genPrompt := some fp }

/-- Dispatch on the outcome of the retrieval loop: a raised task exception
reaches the enclosing except and yields the generic error event. -/
def retrievalStage (env : Env) : List Event × Option String → RunResult
  | (fev, none) =>
    { events := [Event.status MSG_INICIANDO, Event.status MSG_CONSULTANDO] ++ fev
        ++ [Event.error GENERIC_STREAM_ERROR],
      appends := [("user", env.prompt)], genPrompt := none }
  | (fev, some ctx) => afterRetrieval env fev ctx

/-- Embedding of src/main.py `stream_chat_response_generator` (lines 217-273).
The gate runs first and its HTTPException is answered with a single error
event carrying the exception detail.  Inside the main try block, in program
order: append the user message, emit the starting status, read the history,
emit the consulting status, build the search tasks, run the retrieval loop,
then continue with generation; any exception raised inside the block reaches
the final except, which emits one generic error event and terminates. -/
def stream_chat_response_generator (env : Env) : RunResult :=
  match (verify_active_subscription env.admin_domains env.admin_emails
      env.email env.subStore).outcome with
  | GateOutcome.httpError _ d =>
    { events := [Event.error d], appends := [], genPrompt := none }
  | GateOutcome.ok =>
    if !env.persistUserOk then
      { events := [Event.error GENERIC_STREAM_ERROR], appends := [], genPrompt := none }
    else
      match env.history with
      | Except.error _ =>
        { events := [Event.status MSG_INICIANDO, Event.error GENERIC_STREAM_ERROR],
          appends := [("user", env.prompt)], genPrompt := none }
      | Except.ok _ =>
        match env.searchTasks with
        | Except.error _ =>
          { events := [Event.status MSG_INICIANDO, Event.status MSG_CONSULTANDO,
              Event.error GENERIC_STREAM_ERROR],
            appends := [("user", env.prompt)], genPrompt := none }
        | Except.ok outs => retrievalStage env (retrievalLoop outs 0 "")

/-- Embedding of src/main.py `check_vip_access_handler` (lines 347-403) as
the `is_vip_user` field of the returned body.  Inside the try block the
subscription query runs; a query fault is caught (log, pass).  When the
query finds an active or trialing record, the code executes
`return jsonify(...)`: the name `jsonify` is bound nowhere in the module, so
the reference raises NameError, which the same `except Exception` catches
(log, pass).  Control then falls through to the allow-list check, whose
boolean decides the response. -/
def check_vip_access_handler (admin_domains admin_emails : List String)
    (rawEmail : String) (store : Except Unit (List String)) : Bool :=
  let user_email := pyLower (pyStrip rawEmail)
  let subscription_branch : Option Bool :=
    match store with
    | Except.error _ => none
    | Except.ok subs =>
      let results := (subs.filter (fun s => s == "active" || s == "trialing")).take 1
      if results.isEmpty then none
      else if "jsonify" ∈ main_module_top_level_names then some true
      else none
  match subscription_branch with
  | some b => b
  | none =>
    let email_domain := afterLastAt user_email
    if email_domain ∈ admin_domains ∨ user_email ∈ admin_emails then true else false

/-- An event is terminal when it is done or an error. -/
def isTerminal : Event → Bool
  | Event.done => true
  | Event.error _ => true
  | _ => false

/-- The fragment payload of a text event, none for the other variants. -/
def textEventFragment : Event → Option String
  | Event.text s => some s
  | _ => none

/-- The fragments of the text events of a run, in emission order. -/
def textFragments (r : RunResult) : List String :=
  r.events.filterMap textEventFragment

/-- A turn reaches the generation stage: the gate passed, the user-message
append succeeded, the history read succeeded, the task-list construction
succeeded and every retrieval task delivered a result. -/
def ReachesGenerating (env : Env) : Prop :=
  (verify_active_subscription env.admin_domains env.admin_emails
      env.email env.subStore).outcome = GateOutcome.ok
  ∧ env.persistUserOk = true
  ∧ (∃ h, env.history = Except.ok h)
  ∧ (∃ outs, env.searchTasks = Except.ok outs ∧ ∀ o ∈ outs, Except.isOk o = true)

/-- The combined context of a fully successful fanout: the retrieval-task
results concatenated in completion order — the value `combined_context`
accumulates over the loop of src/main.py lines 245-248 (proved against the
loop embedding by `retrievalLoop_all_ok_ctx`). -/
def retrievedContext : List (Except PyExn String) → String
  | [] => ""
  | Except.ok r :: rest => r ++ retrievedContext rest
  | Except.error _ :: _ => ""

/-- Every event emitted by the retrieval loop is a status event. -/
theorem retrievalLoop_events_status :
    ∀ (outs : List (Except PyExn String)) (i : Nat) (ctx : String),
      ∀ e ∈ (retrievalLoop outs i ctx).1, ∃ m, e = Event.status m := by
  intro outs
  induction outs with
  | nil => intro i ctx e he; simp [retrievalLoop] at he
  | cons o rest ih =>
    intro i ctx e he
    cases o with
    | error ex => simp [retrievalLoop] at he
    | ok r =>
      simp only [retrievalLoop] at he
      rcases List.mem_cons.mp he with h | h
      · exact ⟨_, h⟩
      · exact ih (i + 1) (ctx ++ r) e h

/-- When every task delivers a result, the retrieval loop completes, with all
events being status events. -/
theorem retrievalLoop_all_ok :
    ∀ (outs : List (Except PyExn String)), (∀ o ∈ outs, Except.isOk o = true) →
      ∀ (i : Nat) (ctx : String),
      ∃ fev ctx2, retrievalLoop outs i ctx = (fev, some ctx2) ∧
        ∀ e ∈ fev, ∃ m, e = Event.status m := by
  intro outs
  induction outs with
  | nil => exact fun _ i ctx => ⟨[], ctx, rfl, by simp⟩
  | cons o rest ih =>
    intro hall i ctx
    cases o with
    | error ex =>
      have := hall _ (List.mem_cons_self _ _)
      simp [Except.isOk, Except.toBool] at this
    | ok r =>
      obtain ⟨fev, ctx2, hloop, hstat⟩ :=
        ih (fun o ho => hall o (List.mem_cons_of_mem _ ho)) (i + 1) (ctx ++ r)
      refine ⟨Event.status ("Fuente " ++ toString (i + 1) ++ " procesada...") :: fev,
        ctx2, ?_, ?_⟩
      · simp only [retrievalLoop, hloop]
      · intro e he
        rcases List.mem_cons.mp he with h | h
        · exact ⟨_, h⟩
        · exact hstat e h

/-- String.join distributes over appending a final element. -/
theorem string_join_append (l : List String) (s : String) :
    String.join (l ++ [s]) = String.join l ++ s := by
  simp [String.join, List.foldl_append]

/-- Appending a non-empty string on the right yields a non-empty string. -/
theorem string_append_right_ne {b : String} (a : String) (hb : b ≠ "") :
    a ++ b ≠ "" := by
  intro h
  apply hb
  apply String.ext
  have hd := congrArg String.data h
  rw [String.data_append] at hd
  exact (List.append_eq_nil.mp hd).2

/-- When the model is unavailable or the model stream raised mid-consumption,
the fragment list of the gemini client ends with a non-empty fallback
sentence, so the accumulated text is non-empty. -/
theorem genFailure_join_ne (avail : Bool) (g : GenOutcome)
    (h : avail = false ∨ ∃ cs, g = GenOutcome.failAfter cs) :
    String.join (generate_streaming_response avail g) ≠ "" := by
  rcases h with h | ⟨cs, h⟩
  · subst h
    show String.join [NO_MODEL_TEXT] ≠ ""
    decide
  · subst h
    cases avail with
    | false =>
      show String.join [NO_MODEL_TEXT] ≠ ""
      decide
    | true =>
      simp only [generate_streaming_response, Bool.not_true]
      rw [if_neg (by simp)]
      rw [string_join_append]
      exact string_append_right_ne _ (by decide)

/-- Classification of the events preceding the terminal event of a turn that
reached generation: each is a status or a text event. -/
theorem pre_classify (fev : List Event) (chunks : List String)
    (hf : ∀ e ∈ fev, ∃ m, e = Event.status m) :
    ∀ e ∈ [Event.status MSG_INICIANDO, Event.status MSG_CONSULTANDO] ++ fev
        ++ [Event.status MSG_GENERANDO] ++ chunks.map Event.text,
      (∃ m, e = Event.status m) ∨ ∃ s, e = Event.text s := by
  intro e he
  rcases List.mem_append.mp he with h | h
  · rcases List.mem_append.mp h with h | h
    · rcases List.mem_append.mp h with h | h
      · left
        rcases List.mem_cons.mp h with h | h
        · exact ⟨_, h⟩
        · rcases List.mem_cons.mp h with h | h
          · exact ⟨_, h⟩
          · simp at h
      · left; exact hf e h
    · left
      rcases List.mem_cons.mp h with h | h
      · exact ⟨_, h⟩
      · simp at h
  · right
    obtain ⟨s, _, hs⟩ := List.mem_map.mp h
    exact ⟨s, hs.symm⟩

/-- A turn that reaches generation runs the retrieval continuation on the
loop events (all status events) and the accumulated context. -/
theorem run_reaches (env : Env) (hr : ReachesGenerating env) :
    ∃ fev ctx, (∀ e ∈ fev, ∃ m, e = Event.status m) ∧
      stream_chat_response_generator env = afterRetrieval env fev ctx := by
  obtain ⟨hg, hpu, ⟨hist, hh⟩, outs, hs, hall⟩ := hr
  obtain ⟨fev, ctx, hloop, hstat⟩ := retrievalLoop_all_ok outs hall 0 ""
  refine ⟨fev, ctx, hstat, ?_⟩
  unfold stream_chat_response_generator
  rw [hg, hpu, hh, hs]
  show retrievalStage env (retrievalLoop outs 0 "") = afterRetrieval env fev ctx
  rw [hloop]
  rfl

/-- The context delivered by a fully successful retrieval loop is its
accumulator extended by the task results concatenated in completion order. -/
theorem retrievalLoop_all_ok_ctx :
    ∀ (outs : List (Except PyExn String)), (∀ o ∈ outs, Except.isOk o = true) →
      ∀ (i : Nat) (ctx : String),
      (retrievalLoop outs i ctx).2 = some (ctx ++ retrievedContext outs) := by
  intro outs
  induction outs with
  | nil =>
    intro _ i ctx
    simp [retrievalLoop, retrievedContext]
  | cons o rest ih =>
    intro hall i ctx
    cases o with
    | error ex =>
      have := hall _ (List.mem_cons_self _ _)
      simp [Except.isOk, Except.toBool] at this
    | ok r =>
      simp only [retrievalLoop, retrievedContext]
      rw [ih (fun o ho => hall o (List.mem_cons_of_mem _ ho)) (i + 1) (ctx ++ r)]
      rw [String.append_assoc]

/-- A turn that reaches generation runs the retrieval continuation on the
loop events (all status events) and on exactly the combined context of its
task results, concatenated in completion order. -/
theorem run_reaches_ctx (env : Env) (outs : List (Except PyExn String))
    (hs : env.searchTasks = Except.ok outs) (hr : ReachesGenerating env) :
    ∃ fev, (∀ e ∈ fev, ∃ m, e = Event.status m) ∧
      stream_chat_response_generator env =
        afterRetrieval env fev (retrievedContext outs) := by
  obtain ⟨hg, hpu, ⟨hist, hh⟩, outs2, hs2, hall2⟩ := hr
  rw [hs] at hs2
  injection hs2 with houts
  subst houts
  obtain ⟨fev, ctx, hloop, hstat⟩ := retrievalLoop_all_ok outs hall2 0 ""
  have hctx := retrievalLoop_all_ok_ctx outs hall2 0 ""
  rw [hloop] at hctx
  have hctx2 : ctx = retrievedContext outs := by
    have := Option.some.inj hctx
    rwa [String.empty_append] at this
  subst hctx2
  refine ⟨fev, hstat, ?_⟩
  unfold stream_chat_response_generator
  rw [hg, hpu, hh, hs]
  show retrievalStage env (retrievalLoop outs 0 "") =
    afterRetrieval env fev (retrievedContext outs)
  rw [hloop]
  rfl

/-- The run result of the retrieval continuation when the accumulated text is
non-empty and the model-message append succeeds: text events for all chunks,
a model append holding the joined text, then done. -/
theorem afterRetrieval_persist_eq (env : Env) (fev : List Event) (ctx : String)
    (hfull : String.join (generate_streaming_response env.modelAvailable env.gen) ≠ "")
    (hp : env.persistModelOk = true) :
    afterRetrieval env fev ctx =
      { events := [Event.status MSG_INICIANDO, Event.status MSG_CONSULTANDO] ++ fev
          ++ [Event.status MSG_GENERANDO]
          ++ (generate_streaming_response env.modelAvailable env.gen).map Event.text
          ++ [Event.done],
        appends := [("user", env.prompt),
          ("model", String.join (generate_streaming_response env.modelAvailable env.gen))],
        genPrompt := some (final_prompt env.country_code ctx env.prompt) } := by
  simp only [afterRetrieval]
  rw [if_neg hfull, hp]
  rfl

/-- The run result when the accumulated text is non-empty and the
model-message append fails: the raised store exception reaches the generic
except, so the turn ends with the error event and records no model append. -/
theorem afterRetrieval_persistFail_eq (env : Env) (fev : List Event) (ctx : String)
    (hfull : String.join (generate_streaming_response env.modelAvailable env.gen) ≠ "")
    (hp : env.persistModelOk = false) :
    afterRetrieval env fev ctx =
      { events := [Event.status MSG_INICIANDO, Event.status MSG_CONSULTANDO] ++ fev
          ++ [Event.status MSG_GENERANDO]
          ++ (generate_streaming_response env.modelAvailable env.gen).map Event.text
          ++ [Event.error GENERIC_STREAM_ERROR],
        appends := [("user", env.prompt)],
        genPrompt := some (final_prompt env.country_code ctx env.prompt) } := by
  simp only [afterRetrieval]
  rw [if_neg hfull, hp]
  rfl

/-- The run result when the accumulated text is empty: the model append is
skipped entirely and done is still emitted. -/
theorem afterRetrieval_empty_eq (env : Env) (fev : List Event) (ctx : String)
    (hfull : String.join (generate_streaming_response env.modelAvailable env.gen) = "") :
    afterRetrieval env fev ctx =
      { events := [Event.status MSG_INICIANDO, Event.status MSG_CONSULTANDO] ++ fev
          ++ [Event.status MSG_GENERANDO]
          ++ (generate_streaming_response env.modelAvailable env.gen).map Event.text
          ++ [Event.done],
        appends := [("user", env.prompt)],
        genPrompt := some (final_prompt env.country_code ctx env.prompt) } := by
  simp only [afterRetrieval]
  rw [if_pos hfull]

/-- The retrieval continuation always ends in exactly one terminal event. -/
theorem afterRetrieval_terminal (env : Env) (fev : List Event) (ctx : String)
    (hf : ∀ e ∈ fev, ∃ m, e = Event.status m) :
    ∃ pre last, (afterRetrieval env fev ctx).events = pre ++ [last] ∧
      isTerminal last = true ∧ ∀ e ∈ pre, isTerminal e = false := by
  have hcls := pre_classify fev (generate_streaming_response env.modelAvailable env.gen) hf
  have hnt : ∀ e ∈ [Event.status MSG_INICIANDO, Event.status MSG_CONSULTANDO] ++ fev
      ++ [Event.status MSG_GENERANDO]
      ++ (generate_streaming_response env.modelAvailable env.gen).map Event.text,
      isTerminal e = false := by
    intro e he
    rcases hcls e he with ⟨m, rfl⟩ | ⟨s, rfl⟩ <;> rfl
  simp only [afterRetrieval]
  split
  · exact ⟨_, Event.done, rfl, rfl, hnt⟩
  · split
    · exact ⟨_, Event.done, rfl, rfl, hnt⟩
    · exact ⟨_, Event.error GENERIC_STREAM_ERROR, rfl, rfl, hnt⟩

/-- Projecting the text fragments out of the mapped chunk events recovers the
chunks. -/
theorem filterMap_textFragment_map (l : List String) :
    List.filterMap (textEventFragment ∘ Event.text) l = l := by
  induction l with
  | nil => rfl
  | cons a t ih => simp [List.filterMap_cons, textEventFragment, Function.comp, ih]

/-- The text fragments of a turn that reached generation are exactly the
fragments yielded by the model stream, in order. -/
theorem afterRetrieval_textFragments (env : Env) (fev : List Event) (ctx : String)
    (hf : ∀ e ∈ fev, ∃ m, e = Event.status m) :
    textFragments (afterRetrieval env fev ctx) =
      generate_streaming_response env.modelAvailable env.gen := by
  have hfev : List.filterMap textEventFragment fev = [] := by
    rw [List.filterMap_eq_nil_iff]
    intro e he
    obtain ⟨m, rfl⟩ := hf e he
    rfl
  simp only [textFragments, afterRetrieval]
  split
  · simp [List.filterMap_append, hfev, filterMap_textFragment_map, textEventFragment]
  · split
    · simp [List.filterMap_append, hfev, filterMap_textFragment_map, textEventFragment]
    · simp [List.filterMap_append, hfev, filterMap_textFragment_map, textEventFragment]

/-- C7: every request's event stream contains exactly one terminal event
(done, or the final error), with any number of status and text events before
it and no events of any kind emitted after it. -/
theorem c7_single_terminal (env : Env) :
    ∃ pre last, (stream_chat_response_generator env).events = pre ++ [last] ∧
      isTerminal last = true ∧ ∀ e ∈ pre, isTerminal e = false := by
  unfold stream_chat_response_generator
  split
  · exact ⟨[], Event.error _, rfl, rfl, by simp⟩
  · split
    · exact ⟨[], Event.error GENERIC_STREAM_ERROR, rfl, rfl, by simp⟩
    · split
      · refine ⟨[Event.status MSG_INICIANDO], Event.error GENERIC_STREAM_ERROR, rfl, rfl, ?_⟩
        intro e he
        rcases List.mem_cons.mp he with h | h
        · subst h; rfl
        · simp at h
      · split
        · refine ⟨[Event.status MSG_INICIANDO, Event.status MSG_CONSULTANDO],
            Event.error GENERIC_STREAM_ERROR, rfl, rfl, ?_⟩
          intro e he
          rcases List.mem_cons.mp he with h | h
          · subst h; rfl
          · rcases List.mem_cons.mp h with h | h
            · subst h; rfl
            · simp at h
        · rename_i outs hsearch
          rcases hloop : retrievalLoop outs 0 "" with ⟨fev, res⟩
          have hf : ∀ e ∈ fev, ∃ m, e = Event.status m := by
            have h := retrievalLoop_events_status outs 0 ""
            rw [hloop] at h
            exact h
          cases res with
          | none =>
            refine ⟨[Event.status MSG_INICIANDO, Event.status MSG_CONSULTANDO] ++ fev,
              Event.error GENERIC_STREAM_ERROR, rfl, rfl, ?_⟩
            intro e he
            rcases List.mem_append.mp he with h | h
            · rcases List.mem_cons.mp h with h | h
              · subst h; rfl
              · rcases List.mem_cons.mp h with h | h
                · subst h; rfl
                · simp at h
            · obtain ⟨m, rfl⟩ := hf e h
              rfl
          | some ctx => exact afterRetrieval_terminal env fev ctx hf

/-- C6: when the access gate denies the request or fails internally, the
stream emits exactly one error event (carrying the gate detail) and no text,
status, or done events, and nothing is appended to the history store. -/
theorem c6_denied_single_error (env : Env) (code : Nat) (d : String)
    (h : (verify_active_subscription env.admin_domains env.admin_emails
        env.email env.subStore).outcome = GateOutcome.httpError code d) :
    (stream_chat_response_generator env).events = [Event.error d]
    ∧ (stream_chat_response_generator env).appends = [] := by
  unfold stream_chat_response_generator
  rw [h]
  exact ⟨rfl, rfl⟩

/-- C5: the access gate returns VIP — without querying the subscription
store — exactly when the domain after the last at-sign (empty when no
at-sign) is an authorized domain or the full cleaned email is an authorized
email; otherwise it queries the store: a store fault surfaces as HTTP 500,
no active or trialing record surfaces as HTTP 403, and at least one such
record lets the request proceed. -/
theorem c5_access_gate (dom em : List String) (rawEmail : String)
    (store : Except Unit (List String)) :
    ((afterLastAt (pyLower (pyStrip rawEmail)) ∈ dom ∨ pyLower (pyStrip rawEmail) ∈ em) →
      verify_active_subscription dom em rawEmail store =
        { outcome := GateOutcome.ok, queriedStore := false })
    ∧ (¬(afterLastAt (pyLower (pyStrip rawEmail)) ∈ dom ∨ pyLower (pyStrip rawEmail) ∈ em) →
        (store = Except.error () →
          verify_active_subscription dom em rawEmail store =
            { outcome := GateOutcome.httpError 500 DETAIL_500, queriedStore := true })
        ∧ ∀ subs, store = Except.ok subs →
            ((∃ s ∈ subs, s = "active" ∨ s = "trialing") →
              verify_active_subscription dom em rawEmail store =
                { outcome := GateOutcome.ok, queriedStore := true })
            ∧ (¬(∃ s ∈ subs, s = "active" ∨ s = "trialing") →
              verify_active_subscription dom em rawEmail store =
                { outcome := GateOutcome.httpError 403 DETAIL_403, queriedStore := true })) := by
  constructor
  · intro hvip
    simp only [verify_active_subscription]
    rw [if_pos hvip]
  · intro hnv
    constructor
    · intro hst
      subst hst
      simp only [verify_active_subscription]
      rw [if_neg hnv]
    · intro subs hst
      subst hst
      constructor
      · rintro ⟨s, hs, hor⟩
        simp only [verify_active_subscription]
        rw [if_neg hnv]
        have hmem : s ∈ subs.filter (fun s => s == "active" || s == "trialing") :=
          List.mem_filter.mpr ⟨hs, by rcases hor with rfl | rfl <;> decide⟩
        rcases hfe : subs.filter (fun s => s == "active" || s == "trialing") with _ | ⟨a, t⟩
        · rw [hfe] at hmem
          exact absurd hmem (List.not_mem_nil s)
        · rfl
      · intro hno
        simp only [verify_active_subscription]
        rw [if_neg hnv]
        have hfe : subs.filter (fun s => s == "active" || s == "trialing") = [] := by
          rw [List.filter_eq_nil_iff]
          intro s hs
          simp only [Bool.or_eq_true, beq_iff_eq]
          exact fun hor => hno ⟨s, hs, hor⟩
        rw [hfe]
        rfl

/-- C4: with a non-empty configured allow-list, get_current_user rejects
with HTTP 403 every authenticated identity whose token email matches neither
the allowed domains nor the allowed emails; the function takes no
subscription input, so an active subscription cannot influence it, and the
default ADMIN_DOMAINS configuration is the stated non-empty two-domain
list. -/
theorem c4_allowlist_rejects (cfgDomains cfgEmails : List String) (tokenEmail : String)
    (hres : cfgDomains.map (fun d => pyLower (pyStrip d)) ≠ [] ∨
      cfgEmails.map (fun e => pyLower (pyStrip e)) ≠ [])
    (hd : segmentAfterFirstAt (pyLower tokenEmail) ∉
      cfgDomains.map (fun d => pyLower (pyStrip d)))
    (he : pyLower tokenEmail ∉ cfgEmails.map (fun e => pyLower (pyStrip e))) :
    get_current_user_gate cfgDomains cfgEmails tokenEmail = Except.error 403
    ∧ defaultAdminDomains = ["iiresodh.org", "urquilla.com"]
    ∧ defaultAdminDomains ≠ [] := by
  refine ⟨?_, rfl, by decide⟩
  simp only [get_current_user_gate]
  rw [if_pos ⟨hres, not_or.mpr ⟨hd, he⟩⟩]

/-- C10: the name jsonify is bound nowhere in main.py, so the NameError its
reference raises inside the try block is caught by the blanket except: the
subscription branch of check_vip_access_handler can never produce the
is_vip_user true response, the response is independent of the subscription
records, and it is true exactly when the caller is allow-listed. -/
theorem c10_jsonify_branch_dead (dom em : List String) (rawEmail : String)
    (subs : List String)
    (hactive : ∃ s ∈ subs, s = "active" ∨ s = "trialing") :
    "jsonify" ∉ main_module_top_level_names
    ∧ check_vip_access_handler dom em rawEmail (Except.ok subs) =
        check_vip_access_handler dom em rawEmail (Except.ok [])
    ∧ (check_vip_access_handler dom em rawEmail (Except.ok subs) = true ↔
        (afterLastAt (pyLower (pyStrip rawEmail)) ∈ dom ∨ pyLower (pyStrip rawEmail) ∈ em)) := by
  have hjs : "jsonify" ∉ main_module_top_level_names := by decide
  obtain ⟨s, hs, hor⟩ := hactive
  have hmem : s ∈ subs.filter (fun s => s == "active" || s == "trialing") :=
    List.mem_filter.mpr ⟨hs, by rcases hor with rfl | rfl <;> decide⟩
  have hne : ((subs.filter (fun s => s == "active" || s == "trialing")).take 1).isEmpty = false := by
    rcases hfe : subs.filter (fun s => s == "active" || s == "trialing") with _ | ⟨a, t⟩
    · rw [hfe] at hmem
      exact absurd hmem (List.not_mem_nil s)
    · rfl
  have hred : check_vip_access_handler dom em rawEmail (Except.ok subs) =
      (if afterLastAt (pyLower (pyStrip rawEmail)) ∈ dom ∨ pyLower (pyStrip rawEmail) ∈ em
        then true else false) := by
    simp only [check_vip_access_handler]
    rw [hne]
    simp only [Bool.false_eq_true, if_false]
    rw [if_neg hjs]
  refine ⟨hjs, ?_, ?_⟩
  · rw [hred]
    rfl
  · rw [hred]
    by_cases hc : afterLastAt (pyLower (pyStrip rawEmail)) ∈ dom ∨ pyLower (pyStrip rawEmail) ∈ em
    · simp [hc]
    · simp [hc]

/-- C8: for a turn that reaches generation (with a working model-message
append), the text event fragments are exactly the model fragments, the
content appended as the model message is their concatenation, and the model
append happens exactly when the accumulated text is non-empty. -/
theorem c8_stream_persist_correspondence (env : Env) (hr : ReachesGenerating env)
    (hp : env.persistModelOk = true) :
    textFragments (stream_chat_response_generator env) =
      generate_streaming_response env.modelAvailable env.gen
    ∧ (String.join (generate_streaming_response env.modelAvailable env.gen) ≠ "" →
        (stream_chat_response_generator env).appends =
          [("user", env.prompt),
           ("model", String.join (generate_streaming_response env.modelAvailable env.gen))])
    ∧ (String.join (generate_streaming_response env.modelAvailable env.gen) = "" →
        (stream_chat_response_generator env).appends = [("user", env.prompt)]) := by
  obtain ⟨fev, ctx, hf, hrun⟩ := run_reaches env hr
  rw [hrun]
  refine ⟨afterRetrieval_textFragments env fev ctx hf, ?_, ?_⟩
  · intro hfull
    rw [afterRetrieval_persist_eq env fev ctx hfull hp]
  · intro hfull
    rw [afterRetrieval_empty_eq env fev ctx hfull]

/-- C9: a turn reaching prompt assembly hands the model a prompt that is the
fixed-order concatenation of the geographic-context line, the combined
retrieved context, the separator, and the literal user question; the
geographic line renders the absent country hint as the explicit None
placeholder, and the question is present whatever the combined context. -/
theorem c9_prompt_shape (env : Env) (outs : List (Except PyExn String))
    (hs : env.searchTasks = Except.ok outs) (hr : ReachesGenerating env) :
    (stream_chat_response_generator env).genPrompt =
      some (final_prompt env.country_code (retrievedContext outs) env.prompt)
    ∧ (∀ cc ctx q, final_prompt cc ctx q =
        "Contexto geográfico: " ++ pyStrOfOpt cc ++ "\n" ++ ctx
          ++ "\n\n---\n\nPregunta del usuario: " ++ q)
    ∧ pyStrOfOpt none = "None" := by
  obtain ⟨fev, hf, hrun⟩ := run_reaches_ctx env outs hs hr
  refine ⟨?_, fun cc ctx q => rfl, rfl⟩
  rw [hrun]
  simp only [afterRetrieval]
  split
  · rfl
  · split
    · rfl
    · rfl

/-- C2 (amended): a generation failure — model unavailable, or the model
stream raising mid-consumption — is absorbed inside the gemini client, which
yields a fallback sentence as an ordinary fragment; the turn emits no error
event, persists the accumulated text (fallback included) as the model
message, preserves every already-emitted fragment, and still ends with
done. -/
theorem c2_generation_failure_amended (env : Env) (hr : ReachesGenerating env)
    (hg : env.modelAvailable = false ∨ ∃ cs, env.gen = GenOutcome.failAfter cs)
    (hp : env.persistModelOk = true) :
    (∃ pre, (stream_chat_response_generator env).events = pre ++ [Event.done])
    ∧ (∀ d, Event.error d ∉ (stream_chat_response_generator env).events)
    ∧ (stream_chat_response_generator env).appends =
        [("user", env.prompt),
         ("model", String.join (generate_streaming_response env.modelAvailable env.gen))]
    ∧ textFragments (stream_chat_response_generator env) =
        generate_streaming_response env.modelAvailable env.gen := by
  have hfull := genFailure_join_ne env.modelAvailable env.gen hg
  obtain ⟨fev, ctx, hf, hrun⟩ := run_reaches env hr
  have htf := afterRetrieval_textFragments env fev ctx hf
  rw [afterRetrieval_persist_eq env fev ctx hfull hp] at htf
  rw [hrun, afterRetrieval_persist_eq env fev ctx hfull hp]
  refine ⟨⟨_, rfl⟩, ?_, rfl, htf⟩
  intro d hd
  rcases List.mem_append.mp hd with h | h
  · rcases pre_classify fev (generate_streaming_response env.modelAvailable env.gen)
      hf _ h with ⟨m, hm⟩ | ⟨s, hs⟩
    · exact Event.noConfusion hm
    · exact Event.noConfusion hs
  · rcases List.mem_cons.mp h with h | h
    · exact Event.noConfusion h
    · simp at h

/-- C3 (amended): when generation completes with non-empty accumulated text
but the model-message append fails, the raised store exception reaches the
turn-level except handler, which logs it and emits the generic error event
in place of done; the already-emitted text events stand and only the user
message was appended. -/
theorem c3_persist_failure_amended (env : Env) (hr : ReachesGenerating env)
    (hfull : String.join (generate_streaming_response env.modelAvailable env.gen) ≠ "")
    (hp : env.persistModelOk = false) :
    (∃ pre, (stream_chat_response_generator env).events =
      pre ++ [Event.error GENERIC_STREAM_ERROR])
    ∧ Event.done ∉ (stream_chat_response_generator env).events
    ∧ (stream_chat_response_generator env).appends = [("user", env.prompt)]
    ∧ textFragments (stream_chat_response_generator env) =
        generate_streaming_response env.modelAvailable env.gen := by
  obtain ⟨fev, ctx, hf, hrun⟩ := run_reaches env hr
  have htf := afterRetrieval_textFragments env fev ctx hf
  rw [afterRetrieval_persistFail_eq env fev ctx hfull hp] at htf
  rw [hrun, afterRetrieval_persistFail_eq env fev ctx hfull hp]
  refine ⟨⟨_, rfl⟩, ?_, rfl, htf⟩
  intro hd
  rcases List.mem_append.mp hd with h | h
  · rcases pre_classify fev (generate_streaming_response env.modelAvailable env.gen)
      hf _ h with ⟨m, hm⟩ | ⟨s, hs⟩
    · exact Event.noConfusion hm
    · exact Event.noConfusion hs
  · rcases List.mem_cons.mp h with h | h
    · exact Event.noConfusion h
    · simp at h

/-- A concrete allow-listed chat turn in which every external call succeeds:
both retrieval tasks deliver, the model finishes normally with two
fragments, and both persistence calls succeed. -/
def baseEnv : Env :=
  { admin_domains := ["iiresodh.org"], admin_emails := [],
    email := "admin@iiresodh.org", subStore := Except.ok [],
    persistUserOk := true, history := Except.ok [],
    searchTasks := Except.ok [Except.ok "ctxA ", Except.ok ""],
    modelAvailable := true, gen := GenOutcome.success ["Hola", " mundo"],
    persistModelOk := true, country_code := some "CR", prompt := "hola" }

/-- The base turn, but with the retrieval stage given by the actual task-list
construction of src/main.py, which fails on the missing attribute. -/
def c1Env : Env :=
  { baseEnv with searchTasks := search_tasks_construction [Except.ok "x", Except.ok "y"] }

/-- C1 (code bug): src/main.py line 241 looks up `vertex_search_client.search`,
a name the module does not bind, so building the task list raises
AttributeError on every turn reaching RETRIEVING: the stream emits zero
per-source Fuente status events and one generic error event, and the turn
fails — against the claimed two Fuente events and retrieval-cannot-fail
guarantee. -/
theorem c1_retrieving_crashes :
    "search" ∉ vertex_search_client_top_level_names
    ∧ (stream_chat_response_generator c1Env).events =
        [Event.status MSG_INICIANDO, Event.status MSG_CONSULTANDO,
         Event.error GENERIC_STREAM_ERROR]
    ∧ Event.status "Fuente 1 procesada..." ∉ (stream_chat_response_generator c1Env).events
    ∧ Event.status "Fuente 2 procesada..." ∉ (stream_chat_response_generator c1Env).events
    ∧ Event.done ∉ (stream_chat_response_generator c1Env).events :=
  ⟨by decide, by decide, by decide, by decide, by decide⟩

/-- The base turn with the model stream raising after yielding one fragment. -/
def c2CexEnv : Env := { baseEnv with gen := GenOutcome.failAfter ["Hola"] }

/-- C2 as stated is false on the code: with the model stream failing
mid-consumption, the turn emits no error event, still ends in done, and the
model message — fallback sentence included — is persisted. -/
theorem c2_claim_counterexample :
    (stream_chat_response_generator c2CexEnv).events =
      [Event.status MSG_INICIANDO, Event.status MSG_CONSULTANDO,
       Event.status "Fuente 1 procesada...", Event.status "Fuente 2 procesada...",
       Event.status MSG_GENERANDO, Event.text "Hola", Event.text GEN_FAILURE_TEXT,
       Event.done]
    ∧ (∀ d, Event.error d ∉ (stream_chat_response_generator c2CexEnv).events)
    ∧ ("model", "Hola" ++ GEN_FAILURE_TEXT) ∈ (stream_chat_response_generator c2CexEnv).appends := by
  have hev : (stream_chat_response_generator c2CexEnv).events =
      [Event.status MSG_INICIANDO, Event.status MSG_CONSULTANDO,
       Event.status "Fuente 1 procesada...", Event.status "Fuente 2 procesada...",
       Event.status MSG_GENERANDO, Event.text "Hola", Event.text GEN_FAILURE_TEXT,
       Event.done] := by decide
  refine ⟨hev, ?_, by decide⟩
  intro d hd
  rw [hev] at hd
  simp at hd

/-- Witness for C2 (amended) at the failing-stream turn: the model append
holds the fragment plus the fallback sentence. -/
theorem c2_amended_witness :
    (stream_chat_response_generator c2CexEnv).appends =
      [("user", "hola"), ("model", "Hola" ++ GEN_FAILURE_TEXT)] := by
  have h := c2_generation_failure_amended c2CexEnv
    ⟨by decide, rfl, ⟨[], rfl⟩, ⟨[Except.ok "ctxA ", Except.ok ""], rfl, by decide⟩⟩
    (Or.inr ⟨["Hola"], rfl⟩) rfl
  rw [h.2.2.1]
  decide

/-- The base turn with a failing model-message append. -/
def c3CexEnv : Env := { baseEnv with persistModelOk := false }

/-- C3 as stated is false on the code: when the model-message append fails,
the turn ends with the generic error event and done is never emitted. -/
theorem c3_claim_counterexample :
    (stream_chat_response_generator c3CexEnv).events =
      [Event.status MSG_INICIANDO, Event.status MSG_CONSULTANDO,
       Event.status "Fuente 1 procesada...", Event.status "Fuente 2 procesada...",
       Event.status MSG_GENERANDO, Event.text "Hola", Event.text " mundo",
       Event.error GENERIC_STREAM_ERROR]
    ∧ Event.done ∉ (stream_chat_response_generator c3CexEnv).events
    ∧ (stream_chat_response_generator c3CexEnv).appends = [("user", "hola")] :=
  ⟨by decide, by decide, by decide⟩

/-- Witness for C3 (amended) at the failing-append turn. -/
theorem c3_amended_witness :
    (stream_chat_response_generator c3CexEnv).appends = [("user", "hola")]
    ∧ Event.done ∉ (stream_chat_response_generator c3CexEnv).events := by
  have h := c3_persist_failure_amended c3CexEnv
    ⟨by decide, rfl, ⟨[], rfl⟩, ⟨[Except.ok "ctxA ", Except.ok ""], rfl, by decide⟩⟩
    (by decide) rfl
  exact ⟨h.2.2.1, h.2.1⟩

/-- Witness for C4: a gmail user is rejected with 403 under the default
configuration. -/
theorem c4_witness :
    get_current_user_gate defaultAdminDomains defaultAdminEmails
      "Subscriber@Gmail.com" = Except.error 403 :=
  (c4_allowlist_rejects defaultAdminDomains defaultAdminEmails "Subscriber@Gmail.com"
    (by decide) (by decide) (by decide)).1

/-- Witness for C5: an allow-listed identity passes as VIP without a store
query, whatever whitespace and case the token email carries. -/
theorem c5_witness :
    verify_active_subscription ["iiresodh.org"] [] "Admin@iiresodh.org " (Except.ok []) =
      { outcome := GateOutcome.ok, queriedStore := false } :=
  (c5_access_gate ["iiresodh.org"] [] "Admin@iiresodh.org " (Except.ok [])).1 (by decide)

/-- The base turn for a non-allow-listed user with no subscription records. -/
def c6Env : Env := { baseEnv with email := "user@gmail.com" }

/-- Witness for C6: the denied turn emits exactly the one error event. -/
theorem c6_witness :
    (stream_chat_response_generator c6Env).events = [Event.error DETAIL_403]
    ∧ (stream_chat_response_generator c6Env).appends = [] :=
  c6_denied_single_error c6Env 403 DETAIL_403 (by decide)

/-- Witness for C7 at the concrete base turn. -/
theorem c7_witness :
    ∃ pre last, (stream_chat_response_generator baseEnv).events = pre ++ [last] ∧
      isTerminal last = true ∧ ∀ e ∈ pre, isTerminal e = false :=
  c7_single_terminal baseEnv

/-- Witness for C8: at the base turn the fragments are the two model chunks
and the persisted model content is their concatenation. -/
theorem c8_witness :
    textFragments (stream_chat_response_generator baseEnv) = ["Hola", " mundo"]
    ∧ (stream_chat_response_generator baseEnv).appends =
        [("user", "hola"), ("model", "Hola mundo")] := by
  have h := c8_stream_persist_correspondence baseEnv
    ⟨by decide, rfl, ⟨[], rfl⟩, ⟨[Except.ok "ctxA ", Except.ok ""], rfl, by decide⟩⟩ rfl
  constructor
  · rw [h.1]
    decide
  · rw [h.2.1 (by decide)]
    decide

/-- Witness for C9 at the base turn: the prompt holds the geographic line,
the concatenation of the two retrieval results, the separator, and the
question, in that order. -/
theorem c9_witness :
    (stream_chat_response_generator baseEnv).genPrompt =
      some "Contexto geográfico: CR\nctxA \n\n---\n\nPregunta del usuario: hola" := by
  have h := (c9_prompt_shape baseEnv [Except.ok "ctxA ", Except.ok ""] rfl
    ⟨by decide, rfl, ⟨[], rfl⟩, ⟨[Except.ok "ctxA ", Except.ok ""], rfl, by decide⟩⟩).1
  rw [h]
  decide

/-- Witness for C10: a subscriber outside the allow-list receives the false
response even while holding an active subscription record. -/
theorem c10_witness :
    check_vip_access_handler [] [] "subscriber@gmail.com" (Except.ok ["active"]) = false := by
  have h := (c10_jsonify_branch_dead [] [] "subscriber@gmail.com" ["active"]
    ⟨"active", by decide, Or.inl rfl⟩).2.2
  cases hb : check_vip_access_handler [] [] "subscriber@gmail.com" (Except.ok ["active"]) with
  | true =>
    have := h.mp hb
    simp at this
  | false => rfl
